import Mathlib

/-!
Shallow embedding of the PWT (Persistent Web Terminal) server, `src/server.js`.

The server keeps an in-memory session table (`sessions`, a JS `Map` from
session id to a session object), a directory of per-session socket files
(the dtach sockets, whose existence is the liveness signal), and a directory
of persisted per-session JSON records.  We model the table and the store as
association lists that mirror JS `Map` semantics (insertion order kept,
`set` on an existing key updates in place), the socket directory as a list
of session ids, and JS strings/buffers as `List Char`.

Interaction with the outside world (WebSocket sends, pty writes/resizes/
kills, the best-effort socket kill) is captured as a list of `Effect`s
returned alongside the new state.  Nondeterministic inputs of the real
program (the random id from `generateId`, the success of a `dtach -n`
spawn, `Date.now()`, the sha256 hash) are passed in as explicit arguments.
-/

/-- Session status, the JS strings "detached" / "running" / "terminated". -/
inductive Status
  | detached
  | running
  | terminated
deriving DecidableEq, Repr

/-- In-memory session object (server.js line 260 and the literals at lines
313-320, 419-426): `pty` records whether an in-process PTY handle is
attached (`session.pty !== null`), `buffer` is the output scrollback,
`clients` the set of attached client connections (by client id). -/
structure Session where
  pty : Bool
  buffer : List Char
  status : Status
  name : String
  createdAt : Nat
  clients : List Nat
deriving DecidableEq, Repr

/-- Persisted per-session record (`saveSession`, server.js lines 282-288):
`\x7bid, name, buffer, status, createdAt\x7d`. -/
structure SessionRecord where
  id : String
  name : String
  buffer : List Char
  status : Status
  createdAt : Nat
deriving DecidableEq, Repr

/-- The server state the claims are about: the session table, the set of
existing dtach socket files, and the persisted record files. -/
structure ServerState where
  sessions : List (String × Session)
  sockets : List String
  store : List (String × SessionRecord)
deriving DecidableEq, Repr

/-- A client WebSocket connection (server.js lines 610-630): its id, the
`isAuthenticated` and `isAlive` flags and `attachedSession`. -/
structure Conn where
  cid : Nat
  isAuthenticated : Bool
  isAlive : Bool
  attachedSession : Option String
deriving DecidableEq, Repr

/-- Projection of a session sent in `sessions` list messages
(`getSessionList`, server.js lines 545-557). -/
structure SessionInfo where
  id : String
  name : String
  status : Status
  createdAt : Nat
deriving DecidableEq, Repr

/-- Server-to-client messages (the JSON objects sent over the socket). -/
inductive OutMsg
  | errorMsg (message : String)
  | sessionsList (sessions : List SessionInfo)
  | created (sid : String)
  | attached (sid : String) (name : String) (status : Status)
  | history (sid : String) (data : List Char)
  | output (sid : String) (data : List Char)
  | terminated (sid : String)
  | reactivated (sid : String)
  | authRequired (pinLength : Nat)
  | authSuccess
  | authFailed
  | pong
deriving DecidableEq, Repr

/-- Client-to-server messages, discriminated by `type` (server.js switch at
lines 664-790).  `unknown` stands for any unrecognized `type`, which the
switch ignores. -/
inductive InMsg
  | auth (pin : String)
  | list
  | create (name : Option String)
  | attach (sid : String)
  | detach
  | input (data : List Char)
  | resize (cols rows : Nat)
  | terminate (sid : String)
  | reactivate (sid : String)
  | delete (sid : String)
  | rename (sid : String) (name : String)
  | ping
  | unknown
deriving DecidableEq, Repr

/-- Observable side effects of a handler: a send to one client, the global
session-list broadcast (`broadcastSessionList`), pty operations, and the
best-effort `killDtachSocket` process kill. -/
inductive Effect
  | send (cid : Nat) (msg : OutMsg)
  | broadcastList
  | ptyKill (sid : String)
  | ptyWrite (sid : String) (data : List Char)
  | ptyResize (sid : String) (cols rows : Nat)
  | killSocket (sid : String)
deriving DecidableEq, Repr

/-- `Map.get`: first (unique) binding of a key in the association list. -/
def lookupA {α : Type} (k : String) : List (String × α) → Option α
  | [] => none
  | (k2, v) :: t => if k2 = k then some v else lookupA k t

/-- `Map.set`: update in place if the key is present, else append. -/
def setA {α : Type} (k : String) (v : α) : List (String × α) → List (String × α)
  | [] => [(k, v)]
  | (k2, v2) :: t => if k2 = k then (k, v) :: t else (k2, v2) :: setA k v t

/-- Update the value at a key, if present. -/
def updateA {α : Type} (k : String) (f : α → α) : List (String × α) → List (String × α)
  | [] => []
  | (k2, v2) :: t => if k2 = k then (k2, f v2) :: t else (k2, v2) :: updateA k f t

/-- `Map.delete`: remove the binding of a key. -/
def eraseA {α : Type} (k : String) : List (String × α) → List (String × α)
  | [] => []
  | (k2, v2) :: t => if k2 = k then t else (k2, v2) :: eraseA k t

/-- `Set.add` on the client set: no-op if already present, else append. -/
def addClient (c : Nat) (l : List Nat) : List Nat :=
  if c ∈ l then l else l ++ [c]

/-- `Set.delete` on the client set. -/
def removeClient (c : Nat) (l : List Nat) : List Nat :=
  l.filter (fun x => x ≠ c)

/-- `MAX_BUFFER_SIZE` (server.js line 179). -/
def MAX_BUFFER_SIZE : Nat := 100000

/-- The last `n` characters of a string, JS `s.slice(-n)` for `n < s.length`. -/
def lastN (n : Nat) (l : List Char) : List Char :=
  l.drop (l.length - n)

/-- One step of the `onData` buffer maintenance (server.js lines 380-383):
append, then truncate to the most recent `MAX_BUFFER_SIZE` characters when
over the limit. -/
def bufStep (buf data : List Char) : List Char :=
  let c := buf ++ data
  if MAX_BUFFER_SIZE < c.length then lastN MAX_BUFFER_SIZE c else c

/-- `Map.set` lifted to the whole state, leaving sockets and store alone. -/
def setSession (sid : String) (s : Session) (st : ServerState) : ServerState :=
  { st with sessions := setA sid s st.sessions }

/-- The record `saveSession` writes for a session (server.js lines 282-288). -/
def recordOf (sid : String) (s : Session) : SessionRecord :=
  { id := sid, name := s.name, buffer := s.buffer, status := s.status,
    createdAt := s.createdAt }

/-- `saveSession(sessionId)` (server.js lines 278-291): persist the current
in-memory session, a no-op when the id is unknown. -/
def saveSession (sid : String) (st : ServerState) : ServerState :=
  match lookupA sid st.sessions with
  | none => st
  | some s => { st with store := setA sid (recordOf sid s) st.store }

/-- `createDtachSession(sessionId)` (server.js lines 331-354): run
`dtach -n` on the session's socket path.  Success or failure of the spawn
is an input (`spawnOk`); on success the holder has created the socket file. -/
def createDtach (spawnOk : Bool) (sid : String) (st : ServerState) : Bool × ServerState :=
  if spawnOk then
    (true, { st with sockets := if sid ∈ st.sockets then st.sockets else st.sockets ++ [sid] })
  else
    (false, st)

/-- `createSession(name)` (server.js lines 411-433).  The id produced by
`generateId()` (line 262-264, a random base-36 string, used without any
lookup in the table) is the `sid` argument; `now` is `Date.now()`. -/
def createSession (spawnOk : Bool) (now : Nat) (sid : String) (name : Option String)
    (st : ServerState) : Option String × ServerState :=
  match createDtach spawnOk sid st with
  | (false, _) => (none, st)
  | (true, st1) =>
    let s : Session :=
      { pty := false, buffer := [], status := Status.detached,
        name := name.getD ("Session " ++ toString (st1.sessions.length + 1)),
        createdAt := now, clients := [] }
    (some sid, saveSession sid (setSession sid s st1))

/-- `terminateSession(sessionId)` (server.js lines 465-491): kill the pty
handle if present, issue the best-effort `killDtachSocket` (whose forced
socket unlink is deferred by a 100ms timer, so the socket file set is NOT
changed here), set status to terminated, persist, notify attached clients. -/
def terminateSession (sid : String) (st : ServerState) : Bool × ServerState × List Effect :=
  match lookupA sid st.sessions with
  | none => (false, st, [])
  | some s =>
    let killEffs := if s.pty then [Effect.ptyKill sid] else []
    let s1 := { s with pty := false, status := Status.terminated }
    let notify := s.clients.map (fun c => Effect.send c (OutMsg.terminated sid))
    (true, saveSession sid (setSession sid s1 st), killEffs ++ [Effect.killSocket sid] ++ notify)

/-- `reactivateSession(sessionId)` (server.js lines 493-513): only from
status terminated; re-spawn the holder, on success set detached, persist,
notify attached clients. -/
def reactivateSession (spawnOk : Bool) (sid : String) (st : ServerState) :
    Bool × ServerState × List Effect :=
  match lookupA sid st.sessions with
  | none => (false, st, [])
  | some s =>
    if s.status ≠ Status.terminated then (false, st, [])
    else
      match createDtach spawnOk sid st with
      | (false, _) => (false, st, [])
      | (true, st1) =>
        let s1 := { s with status := Status.detached }
        (true, saveSession sid (setSession sid s1 st1),
         s.clients.map (fun c => Effect.send c (OutMsg.reactivated sid)))

/-- `deleteSession(sessionId)` (server.js lines 515-543): kill the pty if
present, best-effort kill, remove the table entry, the record file and
(synchronously, line 538) the socket file. -/
def deleteSession (sid : String) (st : ServerState) : Bool × ServerState × List Effect :=
  match lookupA sid st.sessions with
  | none => (false, st, [])
  | some s =>
    let killEffs := if s.pty then [Effect.ptyKill sid] else []
    let st1 : ServerState :=
      { sessions := eraseA sid st.sessions,
        sockets := st.sockets.filter (fun x => x ≠ sid),
        store := eraseA sid st.store }
    (true, st1, killEffs ++ [Effect.killSocket sid])

/-- Ordering used by `getSessionList` (server.js line 555):
`(a, b) => a.createdAt - b.createdAt`. -/
def byCreatedAt (a b : SessionInfo) : Prop := a.createdAt ≤ b.createdAt

instance : DecidableRel byCreatedAt := fun a b => Nat.decLe a.createdAt b.createdAt

/-- Projection of a table entry pushed into the list (server.js lines
548-553). -/
def infoOf (p : String × Session) : SessionInfo :=
  { id := p.1, name := p.2.name, status := p.2.status, createdAt := p.2.createdAt }

/-- `getSessionList()` (server.js lines 545-557): project every table entry
and sort ascending by `createdAt`.  The JS comparison sort is modelled by a
stable comparison sort. -/
def getSessionList (st : ServerState) : List SessionInfo :=
  List.insertionSort byCreatedAt (st.sessions.map infoOf)

/-- The `ptyProcess.onData` callback for a session (server.js lines
379-391): extend the buffer, truncate to the suffix, broadcast the chunk to
the attached clients. -/
def outputEvent (sid : String) (data : List Char) (st : ServerState) :
    ServerState × List Effect :=
  match lookupA sid st.sessions with
  | none => (st, [])
  | some s =>
    let s1 := { s with buffer := bufStep s.buffer data }
    (setSession sid s1 st,
     s.clients.map (fun c => Effect.send c (OutMsg.output sid data)))

/-- The asynchronous `ptyProcess.onExit` callback (server.js lines 393-406):
drop the handle, re-derive the status from socket-file existence at the
time the event runs, persist, trigger the global list broadcast. -/
def ptyExitEvent (sid : String) (st : ServerState) : ServerState × List Effect :=
  match lookupA sid st.sessions with
  | none => (st, [])
  | some s =>
    let s1 := { s with pty := false,
                       status := if sid ∈ st.sockets then Status.detached else Status.terminated }
    (saveSession sid (setSession sid s1 st), [Effect.broadcastList])

/-- The deferred forced unlink of `killDtachSocket` (server.js lines
458-462), firing 100ms after the kill. -/
def unlinkTimerEvent (sid : String) (st : ServerState) : ServerState :=
  { st with sockets := st.sockets.filter (fun x => x ≠ sid) }

/-- Status derivation of `loadSessions` (server.js lines 303-311). -/
def loadedStatus (stored : Status) (hasSocket : Bool) : Status :=
  if stored = Status.terminated then Status.terminated
  else if hasSocket then Status.detached
  else Status.terminated

/-- The in-memory session `loadSessions` builds from a record
(server.js lines 313-320). -/
def loadedSession (r : SessionRecord) (socks : List String) : Session :=
  { pty := false, buffer := r.buffer, status := loadedStatus r.status (decide (r.id ∈ socks)),
    name := r.name, createdAt := r.createdAt, clients := [] }

/-- `loadSessions()` (server.js lines 293-329): rebuild the table from the
persisted records, deciding each status from socket-file existence. -/
def loadSessions (recs : List SessionRecord) (socks : List String) :
    List (String × Session) :=
  recs.foldl (fun t r => setA r.id (loadedSession r socks) t) []

/-- Apply an update to one session object in the table (the JS pattern
`const session = sessions.get(id); ...mutate session...`). -/
def modifySession (sid : String) (f : Session → Session) (st : ServerState) : ServerState :=
  { st with sessions := updateA sid f st.sessions }

/-- The detach-from-previous-session step of the `attach` case (server.js
lines 688-693): remove the connection from the client set of the session
it was attached to, if any. -/
def attachPrevCleanup (conn : Conn) (st : ServerState) : ServerState :=
  match conn.attachedSession with
  | some prev =>
    modifySession prev (fun s => { s with clients := removeClient conn.cid s.clients }) st
  | none => st

/-- The reconciliation step of the `attach` case (server.js lines 695-706):
when the session has no in-process handle and is not terminated, either
bridge-attach through dtach (handle present, status running) or — the
socket being gone — flip the session to terminated and persist.  Both
sides trigger the global list broadcast. -/
def attachBridge (sid : String) (st1 : ServerState) : ServerState × List Effect :=
  match lookupA sid st1.sessions with
  | some s =>
    if s.pty = false ∧ s.status ≠ Status.terminated then
      if sid ∈ st1.sockets then
        (modifySession sid (fun t => { t with pty := true, status := Status.running }) st1,
         [Effect.broadcastList])
      else
        (saveSession sid
           (modifySession sid (fun t => { t with status := Status.terminated }) st1),
         [Effect.broadcastList])
    else (st1, [])
  | none => (st1, [])

/-- The replies of the `attach` case (server.js lines 713-723): the attach
confirmation, then the one-shot history replay if the buffer is non-empty
(`if (session.buffer)`, JS truthiness of the string). -/
def attachReplies (cid : Nat) (sid : String) (st3 : ServerState) : List Effect :=
  match lookupA sid st3.sessions with
  | some s =>
    Effect.send cid (OutMsg.attached sid s.name s.status) ::
      (if s.buffer = [] then [] else [Effect.send cid (OutMsg.history sid s.buffer)])
  | none => []

/-- The `attach` case of the message handler (server.js lines 680-724):
error on unknown id; drop the connection from any previous session's
client set; reconcile/bridge; add the connection to the client set
regardless of the bridge outcome; send confirmation and history. -/
def attachCase (st : ServerState) (conn : Conn) (sid : String) :
    ServerState × Conn × List Effect :=
  match lookupA sid st.sessions with
  | none => (st, conn, [Effect.send conn.cid (OutMsg.errorMsg "Session not found")])
  | some _ =>
    let bridged := attachBridge sid (attachPrevCleanup conn st)
    let st3 :=
      modifySession sid (fun t => { t with clients := addClient conn.cid t.clients }) bridged.1
    (st3, { conn with attachedSession := some sid },
     bridged.2 ++ attachReplies conn.cid sid st3)

/-- The per-message dispatch of a connection (server.js lines 632-794):
the `auth` case, the not-authenticated gate, then the `switch (msg.type)`.
`hash` stands for sha256, `pinCfg` for the stored PIN hash, `spawnOk` for
the outcome of a `dtach -n` spawn, `now` for `Date.now()` and `newId` for
the string `generateId()` returns. -/
def handleMessage (hash : String → String) (pinCfg : Option String) (spawnOk : Bool)
    (now : Nat) (newId : String) (st : ServerState) (conn : Conn) (msg : InMsg) :
    ServerState × Conn × List Effect :=
  match msg with
  | InMsg.auth pin =>
    match pinCfg with
    | none =>
      (st, { conn with isAuthenticated := true },
       [Effect.send conn.cid OutMsg.authSuccess,
        Effect.send conn.cid (OutMsg.sessionsList (getSessionList st))])
    | some h =>
      if hash pin = h then
        (st, { conn with isAuthenticated := true },
         [Effect.send conn.cid OutMsg.authSuccess,
          Effect.send conn.cid (OutMsg.sessionsList (getSessionList st))])
      else
        (st, conn, [Effect.send conn.cid OutMsg.authFailed])
  | m =>
    if conn.isAuthenticated = false then
      (st, conn, [Effect.send conn.cid (OutMsg.errorMsg "Not authenticated")])
    else
      match m with
      | InMsg.auth _ => (st, conn, [])
      | InMsg.list =>
        (st, conn, [Effect.send conn.cid (OutMsg.sessionsList (getSessionList st))])
      | InMsg.create name =>
        match createSession spawnOk now newId name st with
        | (some sid, st1) =>
          (st1, conn, [Effect.send conn.cid (OutMsg.created sid), Effect.broadcastList])
        | (none, st1) =>
          (st1, conn, [Effect.send conn.cid (OutMsg.errorMsg "Failed to create session")])
      | InMsg.attach sid => attachCase st conn sid
      | InMsg.detach =>
        match conn.attachedSession with
        | some prev =>
          (modifySession prev (fun s => { s with clients := removeClient conn.cid s.clients }) st,
           { conn with attachedSession := none }, [])
        | none => (st, conn, [])
      | InMsg.input data =>
        match conn.attachedSession with
        | none => (st, conn, [])
        | some sid =>
          match lookupA sid st.sessions with
          | some s =>
            if s.pty = true ∧ s.status = Status.running then
              (st, conn, [Effect.ptyWrite sid data])
            else (st, conn, [])
          | none => (st, conn, [])
      | InMsg.resize cols rows =>
        match conn.attachedSession with
        | none => (st, conn, [])
        | some sid =>
          match lookupA sid st.sessions with
          | some s =>
            if s.pty = true ∧ cols ≠ 0 ∧ rows ≠ 0 then
              (st, conn, [Effect.ptyResize sid cols rows])
            else (st, conn, [])
          | none => (st, conn, [])
      | InMsg.terminate sid =>
        match terminateSession sid st with
        | (true, st1, effs) => (st1, conn, effs ++ [Effect.broadcastList])
        | (false, st1, effs) => (st1, conn, effs)
      | InMsg.reactivate sid =>
        match reactivateSession spawnOk sid st with
        | (true, st1, effs) => (st1, conn, effs ++ [Effect.broadcastList])
        | (false, st1, effs) => (st1, conn, effs)
      | InMsg.delete sid =>
        match deleteSession sid st with
        | (true, st1, effs) => (st1, conn, effs ++ [Effect.broadcastList])
        | (false, st1, effs) => (st1, conn, effs)
      | InMsg.rename sid name =>
        match lookupA sid st.sessions with
        | some _ =>
          if name = "" then (st, conn, [])
          else
            (saveSession sid (modifySession sid (fun s => { s with name := name }) st),
             conn, [Effect.broadcastList])
        | none => (st, conn, [])
      | InMsg.ping =>
        (st, { conn with isAlive := true }, [Effect.send conn.cid OutMsg.pong])
      | InMsg.unknown => (st, conn, [])

/-- Whether a message is an `auth` message (the only kind handled before
the authentication gate). -/
def InMsg.isAuth : InMsg → Bool
  | InMsg.auth _ => true
  | _ => false

/-- The messages a given client receives out of an effect list, in order. -/
def sendsTo (c : Nat) (effs : List Effect) : List OutMsg :=
  effs.filterMap (fun e =>
    match e with
    | Effect.send c2 m => if c2 = c then some m else none
    | _ => none)

/-- Deliver a sequence of `onData` events for one session. -/
def applyOutputs (sid : String) (ds : List (List Char)) (st : ServerState) : ServerState :=
  ds.foldl (fun t d => (outputEvent sid d t).1) st

/-!  ## Concrete fixtures for witnesses and counterexamples  -/

/-- An empty server state. -/
def exStateEmpty : ServerState := { sessions := [], sockets := [], store := [] }

/-- A pre-existing session, used to exhibit id reuse. -/
def exSessionOld : Session :=
  { pty := false, buffer := "old".toList, status := Status.detached,
    name := "old session", createdAt := 1, clients := [] }

/-- A state already holding the id "abcd1234". -/
def exStateC1 : ServerState :=
  { sessions := [("abcd1234", exSessionOld)], sockets := ["abcd1234"], store := [] }

/-- A running session with a live pty handle and one attached client. -/
def exSessionRun : Session :=
  { pty := true, buffer := [], status := Status.running,
    name := "work", createdAt := 0, clients := [7] }

/-- A state with the running session "s1" whose socket file exists. -/
def exStateRun : ServerState :=
  { sessions := [("s1", exSessionRun)], sockets := ["s1"], store := [] }

/-- An authenticated connection attached to "s1". -/
def exConnAuth : Conn :=
  { cid := 7, isAuthenticated := true, isAlive := true, attachedSession := some "s1" }

/-- A not-yet-authenticated connection. -/
def exConnUnauth : Conn :=
  { cid := 2, isAuthenticated := false, isAlive := true, attachedSession := none }

/-- A fresh authenticated connection, attached to nothing. -/
def exConnNew : Conn :=
  { cid := 3, isAuthenticated := true, isAlive := true, attachedSession := none }

/-- A persisted record stored as detached. -/
def exRecDetached : SessionRecord :=
  { id := "r1", name := "restored", buffer := [], status := Status.detached, createdAt := 0 }

/-- C6 round-trip, step 1: create session "s1". -/
def c6State1 : ServerState := (createSession true 10 "s1" (some "n") exStateEmpty).2

/-- C6 round-trip, step 2: the output callback delivers "abc". -/
def c6State2 : ServerState := (outputEvent "s1" "abc".toList c6State1).1

/-- C6 round-trip, step 3: terminate. -/
def c6State3 : ServerState := (terminateSession "s1" c6State2).2.1

/-- C6 round-trip, step 4: reactivate. -/
def c6State4 : ServerState := (reactivateSession true "s1" c6State3).2.1

/-- C6 round-trip, step 5: a fresh client attaches. -/
def c6Attach : ServerState × Conn × List Effect := attachCase c6State4 exConnNew "s1"

/-!  ## Association-list and helper lemmas  -/

theorem lookupA_setA {α : Type} (k k2 : String) (v : α) (l : List (String × α)) :
    lookupA k (setA k2 v l) = if k2 = k then some v else lookupA k l := by
  induction l with
  | nil => simp [setA, lookupA]
  | cons p t ih =>
    obtain ⟨a, b⟩ := p
    by_cases h1 : a = k2
    · subst h1
      by_cases h2 : a = k <;> simp [setA, lookupA, h2]
    · by_cases h2 : a = k
      · subst h2
        have hk : k2 ≠ a := fun h => h1 h.symm
        simp [setA, lookupA, h1, hk]
      · simp [setA, lookupA, h1, h2, ih]

theorem lookupA_updateA {α : Type} (k k2 : String) (f : α → α) (l : List (String × α)) :
    lookupA k (updateA k2 f l) =
      if k2 = k then (lookupA k l).map f else lookupA k l := by
  induction l with
  | nil => simp [updateA, lookupA]
  | cons p t ih =>
    obtain ⟨a, b⟩ := p
    by_cases h1 : a = k2
    · subst h1
      by_cases h2 : a = k <;> simp [updateA, lookupA, h2, ih]
    · by_cases h2 : a = k
      · subst h2
        have hk : k2 ≠ a := fun h => h1 h.symm
        simp [updateA, lookupA, h1, hk]
      · simp [updateA, lookupA, h1, h2, ih]

theorem lookupA_setSession_self (sid : String) (s : Session) (st : ServerState) :
    lookupA sid (setSession sid s st).sessions = some s := by
  simp [setSession, lookupA_setA]

theorem setSession_sockets (sid : String) (s : Session) (st : ServerState) :
    (setSession sid s st).sockets = st.sockets := rfl

theorem setSession_store (sid : String) (s : Session) (st : ServerState) :
    (setSession sid s st).store = st.store := rfl

theorem saveSession_store_of_some (sid : String) (st : ServerState) (s : Session)
    (h : lookupA sid st.sessions = some s) :
    (saveSession sid st).store = setA sid (recordOf sid s) st.store := by
  unfold saveSession
  rw [h]

theorem saveSession_sessions (sid : String) (st : ServerState) :
    (saveSession sid st).sessions = st.sessions := by
  unfold saveSession
  cases lookupA sid st.sessions <;> rfl

theorem saveSession_sockets (sid : String) (st : ServerState) :
    (saveSession sid st).sockets = st.sockets := by
  unfold saveSession
  cases lookupA sid st.sessions <;> rfl

theorem lookupA_modifySession_self (sid : String) (f : Session → Session) (st : ServerState) :
    lookupA sid (modifySession sid f st).sessions = (lookupA sid st.sessions).map f := by
  simp [modifySession, lookupA_updateA]

theorem mem_addClient_self (c : Nat) (l : List Nat) : c ∈ addClient c l := by
  unfold addClient
  by_cases h : c ∈ l <;> simp [h]

/-!  ## Buffer suffix lemmas  -/

theorem length_lastN_le (n : Nat) (l : List Char) : (lastN n l).length ≤ n := by
  simp only [lastN, List.length_drop]
  omega

theorem bufStep_eq_lastN (b d : List Char) :
    bufStep b d = lastN MAX_BUFFER_SIZE (b ++ d) := by
  by_cases h : MAX_BUFFER_SIZE < (b ++ d).length
  · simp only [bufStep, if_pos h]
  · simp only [bufStep, if_neg h]
    unfold lastN
    have h0 : (b ++ d).length - MAX_BUFFER_SIZE = 0 := by omega
    rw [h0, List.drop_zero]

theorem lastN_lastN_append (n : Nat) (x d : List Char) :
    lastN n (lastN n x ++ d) = lastN n (x ++ d) := by
  simp only [lastN, List.drop_append_eq_append_drop, List.drop_drop,
    List.length_append, List.length_drop]
  congr 1
  · congr 1
    omega
  · congr 1
    omega

theorem foldl_bufStep_lastN (ds : List (List Char)) :
    ∀ w : List Char,
      ds.foldl bufStep (lastN MAX_BUFFER_SIZE w) =
        lastN MAX_BUFFER_SIZE (w ++ ds.flatten) := by
  induction ds with
  | nil =>
    intro w
    rw [List.foldl_nil, List.flatten_nil, List.append_nil]
  | cons d t ih =>
    intro w
    rw [List.foldl_cons, bufStep_eq_lastN, lastN_lastN_append, ih (w ++ d),
      List.flatten_cons, List.append_assoc]

theorem foldl_bufStep_nil (ds : List (List Char)) :
    ds.foldl bufStep [] = lastN MAX_BUFFER_SIZE ds.flatten := by
  have h := foldl_bufStep_lastN ds []
  rw [List.nil_append] at h
  have h0 : lastN MAX_BUFFER_SIZE ([] : List Char) = [] := rfl
  rw [h0] at h
  exact h

/-!  ## Equation and step lemmas for terminate and attach  -/

theorem terminateSession_eq (sid : String) (st : ServerState) (s : Session)
    (h : lookupA sid st.sessions = some s) :
    terminateSession sid st =
      (true,
       saveSession sid (setSession sid { s with pty := false, status := Status.terminated } st),
       (if s.pty then [Effect.ptyKill sid] else []) ++ [Effect.killSocket sid] ++
         s.clients.map (fun c => Effect.send c (OutMsg.terminated sid))) := by
  unfold terminateSession
  rw [h]

theorem attachCase_eq (st : ServerState) (conn : Conn) (sid : String) (s : Session)
    (h : lookupA sid st.sessions = some s) :
    attachCase st conn sid =
      (modifySession sid (fun t => { t with clients := addClient conn.cid t.clients })
         (attachBridge sid (attachPrevCleanup conn st)).1,
       { conn with attachedSession := some sid },
       (attachBridge sid (attachPrevCleanup conn st)).2 ++
         attachReplies conn.cid sid
           (modifySession sid (fun t => { t with clients := addClient conn.cid t.clients })
              (attachBridge sid (attachPrevCleanup conn st)).1)) := by
  unfold attachCase
  rw [h]

theorem attachPrevCleanup_lookup (sid : String) (conn : Conn) (st : ServerState) (s : Session)
    (h : lookupA sid st.sessions = some s) :
    ∃ s1, lookupA sid (attachPrevCleanup conn st).sessions = some s1 := by
  unfold attachPrevCleanup
  cases hc : conn.attachedSession with
  | none => exact ⟨s, h⟩
  | some prev =>
    simp only [modifySession, lookupA_updateA]
    by_cases hp : prev = sid
    · subst hp
      rw [if_pos rfl, h]
      exact ⟨_, rfl⟩
    · rw [if_neg hp]
      exact ⟨s, h⟩

theorem attachBridge_lookup (sid : String) (st1 : ServerState) (s1 : Session)
    (h : lookupA sid st1.sessions = some s1) :
    ∃ s2, lookupA sid (attachBridge sid st1).1.sessions = some s2 := by
  unfold attachBridge
  rw [h]
  by_cases hc : s1.pty = false ∧ s1.status ≠ Status.terminated
  · by_cases hs : sid ∈ st1.sockets
    · simp only [if_pos hc, if_pos hs, modifySession, lookupA_updateA, if_pos rfl, h]
      exact ⟨_, rfl⟩
    · simp only [if_pos hc, if_neg hs, saveSession_sessions, modifySession,
        lookupA_updateA, if_pos rfl, h]
      exact ⟨_, rfl⟩
  · simp only [if_neg hc]
    exact ⟨s1, h⟩

theorem attachBridge_effects (sid : String) (st1 : ServerState) :
    ∀ e ∈ (attachBridge sid st1).2, e = Effect.broadcastList := by
  unfold attachBridge
  cases h : lookupA sid st1.sessions with
  | none => simp
  | some s1 =>
    by_cases hc : s1.pty = false ∧ s1.status ≠ Status.terminated
    · by_cases hs : sid ∈ st1.sockets <;> simp [hc, hs]
    · simp [hc]

theorem sendsTo_append (c : Nat) (l1 l2 : List Effect) :
    sendsTo c (l1 ++ l2) = sendsTo c l1 ++ sendsTo c l2 := by
  simp [sendsTo, List.filterMap_append]

theorem sendsTo_broadcasts (c : Nat) (l : List Effect)
    (h : ∀ e ∈ l, e = Effect.broadcastList) :
    sendsTo c l = [] := by
  induction l with
  | nil => rfl
  | cons a t ih =>
    have ha := h a (List.mem_cons_self a t)
    subst ha
    have ht := ih (fun e he => h e (List.mem_cons_of_mem _ he))
    simpa [sendsTo, List.filterMap_cons] using ht

/-!  ## Startup reconciliation lemmas  -/

theorem lookupA_foldl_setA_of_ne (socks : List String) (k : String) :
    ∀ (recs : List SessionRecord) (acc : List (String × Session)),
      (∀ r ∈ recs, r.id ≠ k) →
      lookupA k (recs.foldl (fun t r => setA r.id (loadedSession r socks) t) acc) =
        lookupA k acc := by
  intro recs
  induction recs with
  | nil => intro acc _; rfl
  | cons a t ih =>
    intro acc h
    rw [List.foldl_cons, ih _ (fun r hr => h r (List.mem_cons_of_mem a hr)),
      lookupA_setA, if_neg (h a (List.mem_cons_self a t))]

theorem loadSessions_lookup (recs : List SessionRecord) (socks : List String)
    (r : SessionRecord) (hr : r ∈ recs)
    (hnd : (recs.map SessionRecord.id).Nodup) :
    lookupA r.id (loadSessions recs socks) = some (loadedSession r socks) := by
  unfold loadSessions
  suffices h : ∀ (recs2 : List SessionRecord) (acc : List (String × Session)),
      r ∈ recs2 → (recs2.map SessionRecord.id).Nodup →
      lookupA r.id (recs2.foldl (fun t r2 => setA r2.id (loadedSession r2 socks) t) acc) =
        some (loadedSession r socks) by
    exact h recs [] hr hnd
  intro recs2
  induction recs2 with
  | nil => intro acc h; exact absurd h (List.not_mem_nil r)
  | cons a t ih =>
    intro acc hmem hnd2
    rw [List.map_cons, List.nodup_cons] at hnd2
    rw [List.foldl_cons]
    rcases List.mem_cons.mp hmem with h | h
    · subst h
      have hne : ∀ r2 ∈ t, r2.id ≠ r.id := by
        intro r2 h2 heq
        exact hnd2.1 (heq ▸ List.mem_map_of_mem SessionRecord.id h2)
      rw [lookupA_foldl_setA_of_ne socks r.id t _ hne, lookupA_setA, if_pos rfl]
    · exact ih _ h hnd2.2

/-!  ## Ordering instances for the session list  -/

instance : IsTotal SessionInfo byCreatedAt :=
  ⟨fun a b => Nat.le_total a.createdAt b.createdAt⟩

instance : IsTrans SessionInfo byCreatedAt :=
  ⟨fun _ _ _ h1 h2 => Nat.le_trans h1 h2⟩

theorem applyOutputs_lookup (sid : String) (ds : List (List Char)) :
    ∀ (st : ServerState) (s : Session), lookupA sid st.sessions = some s →
      lookupA sid (applyOutputs sid ds st).sessions =
        some { s with buffer := ds.foldl bufStep s.buffer } := by
  induction ds with
  | nil => intro st s h; simpa [applyOutputs] using h
  | cons d t ih =>
    intro st s h
    have h1 : lookupA sid ((outputEvent sid d st).1).sessions =
        some { s with buffer := bufStep s.buffer d } := by
      simp [outputEvent, h, setSession, lookupA_setA]
    have h2 := ih (outputEvent sid d st).1 { s with buffer := bufStep s.buffer d } h1
    simpa [applyOutputs] using h2

/-!  ## Claim theorems  -/

/-- Claim C1, counterexample: `createSession` performs no collision check on
the id produced by `generateId` — in a state whose table already holds the
id "abcd1234", a create call whose random id comes out as "abcd1234" (an
admissible `Math.random` outcome) succeeds, returns that same id, and
overwrites the existing session, so a fresh call can reuse an id already
present in the table. -/
theorem c1_counterexample :
    lookupA "abcd1234" exStateC1.sessions = some exSessionOld ∧
    (createSession true 5 "abcd1234" none exStateC1).1 = some "abcd1234" ∧
    lookupA "abcd1234" ((createSession true 5 "abcd1234" none exStateC1).2).sessions ≠
      some exSessionOld := by
  refine ⟨rfl, rfl, ?_⟩
  decide

/-- Claim C1 (amended): `create(name?)` uses the generated id without any
collision check against the session table, so on spawn success it returns
that id and stores a fresh detached session under it, overwriting any
existing entry with the same id; when the backing-holder spawn fails,
create returns none and the state — table, sockets and store — is
completely unchanged. -/
theorem c1_create_behaviour (now : Nat) (sid : String) (name : Option String)
    (st : ServerState) :
    (createSession false now sid name st).1 = none ∧
    (createSession false now sid name st).2 = st ∧
    (createSession true now sid name st).1 = some sid ∧
    (lookupA sid ((createSession true now sid name st).2).sessions).map
        (fun s => (s.status, s.buffer, s.pty)) = some (Status.detached, [], false) := by
  refine ⟨rfl, rfl, rfl, ?_⟩
  simp only [createSession, createDtach, if_pos trivial, saveSession_sessions,
    lookupA_setSession_self]
  rfl

/-- Claim C2, counterexample: the Terminated flip IS undone by the
asynchronous exit path.  Starting from a running session whose socket file
exists, `terminateSession` sets status terminated, but `killDtachSocket`
only schedules the forced socket unlink (100 ms later); when the pty
`onExit` event is processed while the socket file still exists, the exit
handler sets the status back to detached, so a later observer of the
session sees Detached rather than Terminated. -/
theorem c2_counterexample :
    ((lookupA "s1" ((terminateSession "s1" exStateRun).2.1).sessions).map Session.status
        = some Status.terminated) ∧
    ((lookupA "s1"
        ((ptyExitEvent "s1" (terminateSession "s1" exStateRun).2.1).1).sessions).map
          Session.status = some Status.detached) := by
  refine ⟨?_, ?_⟩ <;> decide

/-- Claim C2 (amended): for every known session id, `terminate(id)` kills
the in-process pty handle if present, sets the session's status to
Terminated, persists the record, and notifies every attached client; the
asynchronous exit path preserves the Terminated status only when the
socket file is already gone when the exit event runs — in particular after
the deferred forced unlink — but reverts it to Detached when the socket
file still exists at that moment. -/
theorem c2_terminate (sid : String) (st : ServerState) (s : Session)
    (h : lookupA sid st.sessions = some s) :
    (terminateSession sid st).1 = true ∧
    lookupA sid ((terminateSession sid st).2.1).sessions =
      some { s with pty := false, status := Status.terminated } ∧
    lookupA sid ((terminateSession sid st).2.1).store =
      some (recordOf sid { s with pty := false, status := Status.terminated }) ∧
    (s.pty = true → Effect.ptyKill sid ∈ (terminateSession sid st).2.2) ∧
    (∀ c ∈ s.clients,
      Effect.send c (OutMsg.terminated sid) ∈ (terminateSession sid st).2.2) ∧
    ((lookupA sid
        ((ptyExitEvent sid
            (unlinkTimerEvent sid (terminateSession sid st).2.1)).1).sessions).map
      Session.status = some Status.terminated) := by
  rw [terminateSession_eq sid st s h]
  have hsess : lookupA sid
      (saveSession sid
        (setSession sid { s with pty := false, status := Status.terminated } st)).sessions =
      some { s with pty := false, status := Status.terminated } := by
    rw [saveSession_sessions, lookupA_setSession_self]
  refine ⟨rfl, hsess, ?_, ?_, ?_, ?_⟩
  · rw [saveSession_store_of_some sid _ _ (lookupA_setSession_self sid _ st),
      setSession_store, lookupA_setA, if_pos rfl]
  · intro hp
    simp [hp]
  · intro c hc
    have hm : Effect.send c (OutMsg.terminated sid) ∈
        s.clients.map (fun c2 => Effect.send c2 (OutMsg.terminated sid)) :=
      List.mem_map_of_mem _ hc
    exact List.mem_append.mpr (Or.inr hm)
  · have hnot : sid ∉ (unlinkTimerEvent sid
        (saveSession sid
          (setSession sid { s with pty := false, status := Status.terminated } st))).sockets := by
      simp [unlinkTimerEvent]
    have hlook : lookupA sid (unlinkTimerEvent sid
        (saveSession sid
          (setSession sid { s with pty := false, status := Status.terminated } st))).sessions =
        some { s with pty := false, status := Status.terminated } := hsess
    rw [ptyExitEvent]
    rw [hlook]
    simp only [if_neg hnot, saveSession_sessions, lookupA_setSession_self, Option.map]

/-- Claim C2 witness: the amended terminate theorem applied to the
concrete running session "s1". -/
theorem c2_terminate_witness :
    (terminateSession "s1" exStateRun).1 = true ∧
    lookupA "s1" ((terminateSession "s1" exStateRun).2.1).sessions =
      some { exSessionRun with pty := false, status := Status.terminated } ∧
    lookupA "s1" ((terminateSession "s1" exStateRun).2.1).store =
      some (recordOf "s1" { exSessionRun with pty := false, status := Status.terminated }) ∧
    (exSessionRun.pty = true → Effect.ptyKill "s1" ∈ (terminateSession "s1" exStateRun).2.2) ∧
    (∀ c ∈ exSessionRun.clients,
      Effect.send c (OutMsg.terminated "s1") ∈ (terminateSession "s1" exStateRun).2.2) ∧
    ((lookupA "s1"
        ((ptyExitEvent "s1"
            (unlinkTimerEvent "s1" (terminateSession "s1" exStateRun).2.1)).1).sessions).map
      Session.status = some Status.terminated) :=
  c2_terminate "s1" exStateRun exSessionRun rfl

/-- Claim C3: for every session and every sequence of output data events
delivered to its output callback (starting from the empty buffer a session
is created with), the resulting `outputBuffer` is exactly the most recent
`MAX_BUFFER_SIZE` characters of the concatenation of everything written,
and its length never exceeds `MAX_BUFFER_SIZE`. -/
theorem c3_buffer_suffix (sid : String) (st : ServerState) (s : Session)
    (ds : List (List Char)) (h : lookupA sid st.sessions = some s)
    (hb : s.buffer = []) :
    ∃ s2, lookupA sid (applyOutputs sid ds st).sessions = some s2 ∧
      s2.buffer = lastN MAX_BUFFER_SIZE ds.flatten ∧
      s2.buffer.length ≤ MAX_BUFFER_SIZE := by
  refine ⟨{ s with buffer := List.foldl bufStep s.buffer ds },
    applyOutputs_lookup sid ds st s h, ?_, ?_⟩
  · show List.foldl bufStep s.buffer ds = lastN MAX_BUFFER_SIZE ds.flatten
    rw [hb, foldl_bufStep_nil]
  · show (List.foldl bufStep s.buffer ds).length ≤ MAX_BUFFER_SIZE
    rw [hb, foldl_bufStep_nil]
    exact length_lastN_le _ _

/-- Claim C3 witness: delivering "ab" then "c" to the running session "s1"
(empty buffer) leaves buffer equal to the suffix of "abc". -/
theorem c3_buffer_suffix_witness :
    ∃ s2, lookupA "s1"
        (applyOutputs "s1" ["ab".toList, "c".toList] exStateRun).sessions = some s2 ∧
      s2.buffer = lastN MAX_BUFFER_SIZE (["ab".toList, "c".toList] : List (List Char)).flatten ∧
      s2.buffer.length ≤ MAX_BUFFER_SIZE :=
  c3_buffer_suffix "s1" exStateRun exSessionRun ["ab".toList, "c".toList] rfl rfl

/-- Claim C4: at startup, every persisted record loads with status derived
from socket existence: a stored "terminated" stays terminated regardless of
the socket; any other stored status loads as detached when the socket file
exists and as terminated when it does not. -/
theorem c4_startup (recs : List SessionRecord) (socks : List String)
    (r : SessionRecord) (hr : r ∈ recs)
    (hnd : (recs.map SessionRecord.id).Nodup) :
    lookupA r.id (loadSessions recs socks) = some (loadedSession r socks) ∧
    (loadedSession r socks).status =
      (if r.status = Status.terminated then Status.terminated
       else if r.id ∈ socks then Status.detached else Status.terminated) := by
  refine ⟨loadSessions_lookup recs socks r hr hnd, ?_⟩
  by_cases h : r.status = Status.terminated <;>
    by_cases h2 : r.id ∈ socks <;>
      simp [loadedSession, loadedStatus, h, h2]

/-- Claim C4 witness: a record stored as detached with no socket file loads
as terminated. -/
theorem c4_startup_witness :
    lookupA "r1" (loadSessions [exRecDetached] []) =
      some (loadedSession exRecDetached []) ∧
    (loadedSession exRecDetached []).status =
      (if exRecDetached.status = Status.terminated then Status.terminated
       else if exRecDetached.id ∈ ([] : List String) then Status.detached
       else Status.terminated) := by
  have h := c4_startup [exRecDetached] [] exRecDetached (List.mem_singleton.mpr rfl)
    (by simp)
  simpa using h

/-- Claim C5: when a PIN is configured, every message from a connection
that has not authenticated whose type is not `auth` is answered with the
explicit "Not authenticated" error, and nothing else happens: the state
(session table, sockets, store) and the connection are unchanged, so no
session is created, mutated or attached. -/
theorem c5_auth_gate (hash : String → String) (p : String) (spawnOk : Bool) (now : Nat)
    (newId : String) (st : ServerState) (conn : Conn) (msg : InMsg)
    (hauth : conn.isAuthenticated = false) (hmsg : msg.isAuth = false) :
    handleMessage hash (some p) spawnOk now newId st conn msg =
      (st, conn, [Effect.send conn.cid (OutMsg.errorMsg "Not authenticated")]) := by
  cases msg <;> simp_all [handleMessage, InMsg.isAuth]

/-- Claim C5 witness: an unauthenticated `create` request is rejected with
the error and leaves everything unchanged. -/
theorem c5_auth_gate_witness :
    handleMessage id (some "pinhash") true 0 "x" exStateRun exConnUnauth (InMsg.create none) =
      (exStateRun, exConnUnauth,
       [Effect.send exConnUnauth.cid (OutMsg.errorMsg "Not authenticated")]) :=
  c5_auth_gate id "pinhash" true 0 "x" exStateRun exConnUnauth (InMsg.create none) rfl rfl

/-- Claim C6: create, deliver output "abc", terminate, reactivate, attach:
the buffer survives terminate (status terminated, buffer "abc"), the
session is Detached with buffer "abc" after reactivate, Running after the
attach, and the attach replies are exactly the confirmation followed by a
history replay equal to "abc". -/
theorem c6_round_trip :
    ((lookupA "s1" c6State3.sessions).map (fun s => (s.status, s.buffer)) =
      some (Status.terminated, "abc".toList)) ∧
    ((lookupA "s1" c6State4.sessions).map (fun s => (s.status, s.buffer)) =
      some (Status.detached, "abc".toList)) ∧
    ((lookupA "s1" c6Attach.1.sessions).map (fun s => (s.status, s.buffer)) =
      some (Status.running, "abc".toList)) ∧
    c6Attach.2.2 =
      [Effect.broadcastList,
       Effect.send 3 (OutMsg.attached "s1" "n" Status.running),
       Effect.send 3 (OutMsg.history "s1" "abc".toList)] := by
  refine ⟨?_, ?_, ?_, ?_⟩ <;> decide

/-- Claim C7: attaching to any known session id adds the connection to the
session's client set regardless of the bridge outcome, records the
attachment on the connection, and the messages this client receives are
exactly the attach confirmation (name, status) first, followed by a
history replay iff the buffer is non-empty. -/
theorem c7_attach (st : ServerState) (conn : Conn) (sid : String) (s : Session)
    (h : lookupA sid st.sessions = some s) :
    ∃ s2, lookupA sid (attachCase st conn sid).1.sessions = some s2 ∧
      conn.cid ∈ s2.clients ∧
      (attachCase st conn sid).2.1.attachedSession = some sid ∧
      sendsTo conn.cid (attachCase st conn sid).2.2 =
        OutMsg.attached sid s2.name s2.status ::
          (if s2.buffer = [] then [] else [OutMsg.history sid s2.buffer]) := by
  obtain ⟨s1, h1⟩ := attachPrevCleanup_lookup sid conn st s h
  obtain ⟨smid, h2⟩ := attachBridge_lookup sid (attachPrevCleanup conn st) s1 h1
  rw [attachCase_eq st conn sid s h]
  refine ⟨{ smid with clients := addClient conn.cid smid.clients }, ?_, ?_, rfl, ?_⟩
  · rw [lookupA_modifySession_self, h2]
    rfl
  · exact mem_addClient_self conn.cid smid.clients
  · rw [sendsTo_append,
      sendsTo_broadcasts conn.cid _ (attachBridge_effects sid (attachPrevCleanup conn st)),
      List.nil_append]
    have h3 : lookupA sid
        (modifySession sid (fun t => { t with clients := addClient conn.cid t.clients })
          (attachBridge sid (attachPrevCleanup conn st)).1).sessions =
        some { smid with clients := addClient conn.cid smid.clients } := by
      rw [lookupA_modifySession_self, h2]
      rfl
    rw [attachReplies, h3]
    by_cases hb : smid.buffer = [] <;> simp [sendsTo, hb]

/-- Claim C7 witness: the fresh client 3 attaches to the known terminated
session left by the C6 chain's terminate step. -/
theorem c7_attach_witness :
    ∃ s2, lookupA "s1" (attachCase c6State3 exConnNew "s1").1.sessions = some s2 ∧
      exConnNew.cid ∈ s2.clients ∧
      (attachCase c6State3 exConnNew "s1").2.1.attachedSession = some "s1" ∧
      sendsTo exConnNew.cid (attachCase c6State3 exConnNew "s1").2.2 =
        OutMsg.attached "s1" s2.name s2.status ::
          (if s2.buffer = [] then [] else [OutMsg.history "s1" s2.buffer]) :=
  c7_attach c6State3 exConnNew "s1"
    { pty := false, buffer := "abc".toList, status := Status.terminated,
      name := "n", createdAt := 10, clients := [] } (by decide)

/-- Claim C8: `list()` returns exactly the sessions of the table (as a
permutation of its projection) ordered by `createdAt` ascending. -/
theorem c8_list (st : ServerState) :
    (getSessionList st).Perm (st.sessions.map infoOf) ∧
    (getSessionList st).Sorted byCreatedAt :=
  ⟨List.perm_insertionSort byCreatedAt (st.sessions.map infoOf),
   List.sorted_insertionSort byCreatedAt (st.sessions.map infoOf)⟩

/-- Claim C9, counterexample: forwarding of a resize DOES depend on the
dimension values.  The session "s1" has a live in-process handle, the
client is attached, yet `resize` with cols = 0 (a falsy JS number, see the
`msg.cols && msg.rows` guard at server.js line 749) produces no pty resize
at all. -/
theorem c9_counterexample :
    ((lookupA "s1" exStateRun.sessions).map Session.pty = some true) ∧
    handleMessage id none true 0 "x" exStateRun exConnAuth (InMsg.resize 0 24) =
      (exStateRun, exConnAuth, []) := by
  refine ⟨?_, ?_⟩ <;> decide

/-- Claim C9 (amended): for a client attached to an existing session, a
`resize(cols, rows)` is forwarded to the in-process handle iff the handle
exists AND both cols and rows are non-zero (JS truthiness); in every case
the state and the connection are unchanged. -/
theorem c9_resize (hash : String → String) (pinCfg : Option String) (spawnOk : Bool)
    (now : Nat) (newId : String) (st : ServerState) (conn : Conn) (sid : String)
    (s : Session) (cols rows : Nat)
    (hc : conn.isAuthenticated = true) (ha : conn.attachedSession = some sid)
    (hs : lookupA sid st.sessions = some s) :
    handleMessage hash pinCfg spawnOk now newId st conn (InMsg.resize cols rows) =
      (st, conn,
       if s.pty = true ∧ cols ≠ 0 ∧ rows ≠ 0 then [Effect.ptyResize sid cols rows]
       else []) := by
  by_cases hfwd : s.pty = true ∧ cols ≠ 0 ∧ rows ≠ 0 <;>
    simp [handleMessage, hc, ha, hs, hfwd]

/-- Claim C9 witness: with a live handle and non-zero dimensions the resize
is forwarded. -/
theorem c9_resize_witness :
    handleMessage id none true 0 "x" exStateRun exConnAuth (InMsg.resize 80 24) =
      (exStateRun, exConnAuth,
       if exSessionRun.pty = true ∧ (80 : Nat) ≠ 0 ∧ (24 : Nat) ≠ 0 then
         [Effect.ptyResize "s1" 80 24]
       else []) :=
  c9_resize id none true 0 "x" exStateRun exConnAuth "s1" exSessionRun 80 24 rfl rfl rfl

/-- Claim C10: for a session id absent from the table, `terminateSession`,
`reactivateSession` and `deleteSession` all return false and leave the
state untouched, and the corresponding client-facing handlers send no
message at all (no error reply, no session-list broadcast) and change
nothing. -/
theorem c10_unknown_id (hash : String → String) (pinCfg : Option String) (spawnOk : Bool)
    (now : Nat) (newId : String) (st : ServerState) (conn : Conn) (sid : String)
    (hna : lookupA sid st.sessions = none) (hc : conn.isAuthenticated = true) :
    terminateSession sid st = (false, st, []) ∧
    reactivateSession spawnOk sid st = (false, st, []) ∧
    deleteSession sid st = (false, st, []) ∧
    handleMessage hash pinCfg spawnOk now newId st conn (InMsg.terminate sid) =
      (st, conn, []) ∧
    handleMessage hash pinCfg spawnOk now newId st conn (InMsg.reactivate sid) =
      (st, conn, []) ∧
    handleMessage hash pinCfg spawnOk now newId st conn (InMsg.delete sid) =
      (st, conn, []) := by
  refine ⟨?_, ?_, ?_, ?_, ?_, ?_⟩ <;>
    simp [handleMessage, terminateSession, reactivateSession, deleteSession, hna, hc]

/-- Claim C10 witness: the unknown id "zz" against the concrete running
state. -/
theorem c10_unknown_id_witness :
    terminateSession "zz" exStateRun = (false, exStateRun, []) ∧
    reactivateSession true "zz" exStateRun = (false, exStateRun, []) ∧
    deleteSession "zz" exStateRun = (false, exStateRun, []) ∧
    handleMessage id none true 0 "x" exStateRun exConnAuth (InMsg.terminate "zz") =
      (exStateRun, exConnAuth, []) ∧
    handleMessage id none true 0 "x" exStateRun exConnAuth (InMsg.reactivate "zz") =
      (exStateRun, exConnAuth, []) ∧
    handleMessage id none true 0 "x" exStateRun exConnAuth (InMsg.delete "zz") =
      (exStateRun, exConnAuth, []) :=
  c10_unknown_id id none true 0 "x" exStateRun exConnAuth "zz" (by decide) rfl
